import Mathlib

/-!
Verification of the filter-and-aggregate pipeline and the keyword query
parser of the NYC Motor-Vehicle-Collisions dashboard (`app.py`).

The Python source is shallowly embedded: dataframes become `List Record`,
pandas boolean-mask filtering becomes `List.filter`, pandas `groupby`
(which sorts group keys ascending) becomes sorted deduplicated key lists,
and Python float arithmetic on rates becomes exact `ℚ` arithmetic.  Figure
construction (plotly calls) is presentation-layer and carries no data
logic, so only the data computed for each chart is modelled.
-/

/-! ## String containment (the Python `in` operator on strings) -/

/-- Predicate `headAgrees needle hay` is true when `needle` occurs at the very start of
`hay` (character-wise). -/
def headAgrees : List Char → List Char → Bool
  | [], _ => true
  | _ :: _, [] => false
  | a :: as, b :: bs => a == b && headAgrees as bs

/-- Predicate `subIn needle hay` is true when `needle` occurs contiguously somewhere in
`hay`; this is the Python expression `needle in hay` on strings. -/
def subIn (needle : List Char) : List Char → Bool
  | [] => headAgrees needle []
  | b :: bs => headAgrees needle (b :: bs) || subIn needle bs

/-- The Python expression `needle in hay` for strings. -/
def strContains (hay needle : String) : Bool :=
  subIn needle.toList hay.toList

/-- The Python method `str.lower()` (ASCII case folding, which covers every keyword
the parser scans for). -/
def lowerStr (s : String) : String :=
  String.mk (s.data.map Char.toLower)

theorem headAgrees_iff (n : List Char) : ∀ h : List Char,
    headAgrees n h = true ↔ n <+: h := by
  induction n with
  | nil => intro h; simp [headAgrees, List.nil_prefix]
  | cons a as ih =>
    intro h
    cases h with
    | nil => simp [headAgrees, List.prefix_nil]
    | cons b bs =>
      rw [headAgrees, List.cons_prefix_cons, Bool.and_eq_true, beq_iff_eq, ih]

theorem subIn_iff (n : List Char) : ∀ h : List Char, subIn n h = true ↔ n <:+: h := by
  intro h
  induction h with
  | nil =>
    simp only [subIn, headAgrees_iff]
    constructor
    · intro hp; exact List.IsPrefix.isInfix hp
    · intro hi; exact List.eq_nil_of_infix_nil hi ▸ List.prefix_refl _
  | cons b bs ih =>
    simp only [subIn, Bool.or_eq_true, headAgrees_iff, ih, List.infix_cons_iff]

/-- Transitivity of substring containment: if `hay` contains `mid` and `mid`
contains `needle`, then `hay` contains `needle`. -/
theorem strContains_trans {hay mid needle : String}
    (h1 : strContains hay mid = true) (h2 : strContains mid needle = true) :
    strContains hay needle = true := by
  rw [strContains, subIn_iff] at *
  exact h2.trans h1

/-! ## Query parser (`smart_search_parser` in `app.py`)

The parser lower-cases the input and runs ordered keyword scans; within a
category the first match in table order wins.  Python dict iteration order
is insertion order, so the dicts become ordered association lists. -/

/-- Structured filter values produced by the query parser (the `filters`
dict of `smart_search_parser`; an absent dict key is `none`). -/
structure ParsedFilters where
  borough : Option String
  year : Option Nat
  month : Option Nat
  dow : Option (List Nat)
  hour_range : Option (Nat × Nat)
  vehicle : Option String
  person_type : Option String
  injury : Option String
  gender : Option String
deriving Repr, DecidableEq

/-- The five borough names scanned in order. -/
def boroughsMap : List String :=
  ["BROOKLYN", "MANHATTAN", "QUEENS", "BRONX", "STATEN ISLAND"]

/-- Month names and abbreviations, in the insertion order of `months_map`. -/
def monthsMap : List (String × Nat) :=
  [("january", 1), ("february", 2), ("march", 3), ("april", 4), ("may", 5),
   ("june", 6), ("july", 7), ("august", 8), ("september", 9), ("october", 10),
   ("november", 11), ("december", 12),
   ("jan", 1), ("feb", 2), ("mar", 3), ("apr", 4), ("jun", 6), ("jul", 7),
   ("aug", 8), ("sep", 9), ("oct", 10), ("nov", 11), ("dec", 12)]

/-- Day names, abbreviations and the synthetic weekday/weekend tokens, in the
insertion order of `days_map` (0 = Monday .. 6 = Sunday). -/
def daysMap : List (String × List Nat) :=
  [("monday", [0]), ("tuesday", [1]), ("wednesday", [2]), ("thursday", [3]),
   ("friday", [4]), ("saturday", [5]), ("sunday", [6]),
   ("mon", [0]), ("tue", [1]), ("wed", [2]), ("thu", [3]), ("fri", [4]),
   ("sat", [5]), ("sun", [6]),
   ("weekday", [0, 1, 2, 3, 4]), ("weekend", [5, 6])]

/-- Vehicle keywords mapped to normalized categories, in the insertion order
of `vehicle_keywords`. -/
def vehicleKeywords : List (String × String) :=
  [("sedan", "SEDAN"), ("suv", "STATION WAGON/SPORT UTILITY VEHICLE"),
   ("taxi", "TAXI"), ("truck", "PICK-UP TRUCK"), ("bus", "BUS"),
   ("motorcycle", "MOTORCYCLE"), ("bike", "BICYCLE"), ("scooter", "SCOOTER"),
   ("van", "VAN"), ("ambulance", "AMBULANCE"), ("moped", "MOPED")]

/-- A word character for the purposes of the `\b` boundary in the year
regular expression `\b(20[1-2][0-9])\b` (ASCII letters, digits, underscore). -/
def isWordChar (c : Char) : Bool := c.isAlphanum || c == '_'

/-- Does a four-character window match `20[1-2][0-9]`? -/
def isYearPat (a b c d : Char) : Bool :=
  a == '2' && b == '0' && (c == '1' || c == '2') && d.isDigit

/-- Left-to-right scan for the first `\b20[1-2][0-9]\b` match in the original
(not lower-cased) text, as `re.findall(...)[0]`.  `prev` is the character
just before the current window (for the left word boundary). -/
def yearScan : Option Char → List Char → Option Nat
  | prev, a :: b :: c :: d :: rest =>
    if isYearPat a b c d
        && (match prev with | none => true | some p => !(isWordChar p))
        && (match rest with | [] => true | e :: _ => !(isWordChar e)) then
      some ((a.toNat - 48) * 1000 + (b.toNat - 48) * 100 +
            (c.toNat - 48) * 10 + (d.toNat - 48))
    else
      yearScan (some a) (b :: c :: d :: rest)
  | _, _ => none

/-- The time-of-day if/elif chain of `smart_search_parser`, returning the
hour range and the feedback string of the branch that fired. -/
def timeScan (s : String) : Option ((Nat × Nat) × String) :=
  if strContains s "morning" then some ((6, 10), "Time: Morning (6-10)")
  else if strContains s "afternoon" then some ((12, 17), "Time: Afternoon (12-17)")
  else if strContains s "evening" then some ((17, 20), "Time: Evening (17-20)")
  else if strContains s "night" then some ((20, 23), "Time: Night (20-23)")
  else if strContains s "late night" || strContains s "midnight" then
    some ((0, 5), "Time: Late Night (0-5)")
  else none

/-- Model of `smart_search_parser`: `none` models the Python `return None` for empty
input; otherwise the parsed filters plus the applied-filter feedback strings
in scan order. -/
def smartSearchParser (search_text : String) :
    Option (ParsedFilters × List String) :=
  if search_text = "" then none
  else
    let s := lowerStr search_text
    let bRes : Option String := boroughsMap.find? (fun b => strContains s (lowerStr b))
    let yRes : Option Nat := yearScan none search_text.toList
    let mRes : Option (String × Nat) := monthsMap.find? (fun p => strContains s p.1)
    let dRes : Option (String × List Nat) := daysMap.find? (fun p => strContains s p.1)
    let tRes : Option ((Nat × Nat) × String) := timeScan s
    let vRes : Option (String × String) :=
      vehicleKeywords.find? (fun p => strContains s p.1)
    let pRes : Option (String × String) :=
      if strContains s "pedestrian" then some ("PEDESTRIAN", "Person: Pedestrian")
      else if strContains s "cyclist" then some ("CYCLIST", "Person: Cyclist")
      else if strContains s "occupant" || strContains s "driver" then
        some ("OCCUPANT", "Person: Occupant")
      else none
    let iRes : Option (String × String) :=
      if strContains s "fatal" || strContains s "death" || strContains s "killed" then
        some ("KILLED", "Injury: Fatal")
      else if strContains s "injured" || strContains s "injury" then
        some ("INJURED", "Injury: Injured")
      else none
    let gRes : Option (String × String) :=
      if strContains s "male" && !(strContains s "female") then
        some ("M", "Gender: Male")
      else if strContains s "female" then some ("F", "Gender: Female")
      else none
    some
      ({ borough := bRes
         year := yRes
         month := mRes.map (fun p => p.2)
         dow := dRes.map (fun p => p.2)
         hour_range := tRes.map (fun p => p.1)
         vehicle := vRes.map (fun p => p.2)
         person_type := pRes.map (fun p => p.1)
         injury := iRes.map (fun p => p.1)
         gender := gRes.map (fun p => p.1) },
       (bRes.map (fun b => "Borough: " ++ b)).toList
         ++ (yRes.map (fun y => "Year: " ++ toString y)).toList
         ++ (mRes.map (fun p => "Month: " ++ p.1.capitalize)).toList
         ++ (dRes.map (fun p => "Day: " ++ p.1.capitalize)).toList
         ++ (tRes.map (fun p => p.2)).toList
         ++ (vRes.map (fun p => "Vehicle: " ++ p.1.capitalize)).toList
         ++ (pRes.map (fun p => p.2)).toList
         ++ (iRes.map (fun p => p.2)).toList
         ++ (gRes.map (fun p => p.2)).toList)

/-! ## Claims about the query parser -/

/-- Both "late night" and "midnight" contain "night" as a substring, so the
`elif` branch for "night" of the time-of-day chain always fires first: the
`(0, 5)` branch is unreachable. -/
theorem timeScan_not_late (t : String) :
    ∀ p, timeScan t = some p → p.1 ≠ (0, 5) := by
  intro p hp
  unfold timeScan at hp
  split_ifs at hp with h1 h2 h3 h4 h5
  · cases hp; decide
  · cases hp; decide
  · cases hp; decide
  · cases hp; decide
  · exfalso
    have h5' : strContains t "late night" = true ∨ strContains t "midnight" = true := by
      simpa using h5
    rcases h5' with h | h
    · exact h4 (strContains_trans h (by decide))
    · exact h4 (strContains_trans h (by decide))

/-- C1: FALSE of the code as stated.  For the input "midnight" (lower-cased
text contains "midnight" and none of "morning"/"afternoon"/"evening") the
parser sets the hour range to (20, 23) through the "night" branch, because
"night" is a substring of "midnight" and the `elif` check for "night"
precedes the check for "late night" or "midnight"; moreover no input can
ever receive the (0, 5) range — that branch (with its feedback string
"Time: Late Night (0-5)") is dead code. -/
theorem C1_late_night_dead_branch :
    smartSearchParser "midnight" =
        some ({ borough := none, year := none, month := none, dow := none,
                hour_range := some (20, 23), vehicle := none, person_type := none,
                injury := none, gender := none },
              ["Time: Night (20-23)"])
      ∧ ∀ s : String,
          (smartSearchParser s).elim True (fun r => r.1.hour_range ≠ some (0, 5)) := by
  refine ⟨by decide, fun s => ?_⟩
  by_cases hs : s = ""
  · simp [smartSearchParser, hs]
  · simp only [smartSearchParser, hs, if_neg, Option.elim_some]
    intro hcontra
    rcases Option.map_eq_some'.mp hcontra with ⟨p, hp, hfst⟩
    exact timeScan_not_late _ p hp hfst

/-- C9 counterexample: the non-empty input "zzz" matches no keyword in any
category scan, yet the parser returns a successfully-parsed empty criteria
object `some (all-none, [])` — not the distinct "no filters" signal `none`
that empty input produces. -/
theorem C9_cex_unmatched_text :
    smartSearchParser "zzz" =
        some ({ borough := none, year := none, month := none, dow := none,
                hour_range := none, vehicle := none, person_type := none,
                injury := none, gender := none }, [])
      ∧ smartSearchParser "" = none := by
  exact ⟨by decide, by decide⟩

/-- C9 as amended: only empty input yields the "no filters" signal (`None`);
every non-empty input — including one matching no keyword at all — returns a
successful parse (possibly with an empty criteria object and an empty
applied-filters list). -/
theorem C9_amended_no_filters_signal :
    smartSearchParser "" = none
      ∧ ∀ s : String, s ≠ "" → (smartSearchParser s).isSome = true := by
  refine ⟨by decide, fun s hs => ?_⟩
  simp [smartSearchParser, hs]

/-- Witness for `C9_amended_no_filters_signal` at the concrete input "zzz". -/
theorem C9_amended_no_filters_signal_witness :
    ("zzz" : String) ≠ "" ∧ (smartSearchParser "zzz").isSome = true :=
  ⟨by decide, C9_amended_no_filters_signal.2 "zzz" (by decide)⟩

/-! ## Data model (one row of the integrated crashes + persons dataframe)

Field names follow the dataframe columns, with spaces replaced by
underscores.  Missing categorical values behave in pandas like a value that
compares unequal to every filter constant, so they are kept as plain
strings; `LATITUDE`/`LONGITUDE` need `notna`, so they are `Option ℚ`. -/

structure Record where
  BOROUGH : String
  CRASH_YEAR : Int
  CRASH_MONTH : Nat
  CRASH_DAYOFWEEK : Nat
  CRASH_HOUR : Nat
  VEHICLE_TYPE_CODE_1 : String
  VEHICLE_TYPE_CODE_2 : String
  PERSON_TYPE : String
  PERSON_INJURY : String
  PERSON_SEX : String
  SAFETY_EQUIPMENT : String
  POSITION_IN_VEHICLE : String
  CONTRIBUTING_FACTOR_VEHICLE_1 : String
  CONTRIBUTING_FACTOR_VEHICLE_2 : String
  NUMBER_OF_PERSONS_INJURED : Nat
  NUMBER_OF_PERSONS_KILLED : Nat
  COLLISION_ID : Nat
  LATITUDE : Option ℚ
  LONGITUDE : Option ℚ
deriving Repr, DecidableEq

/-! ## Filter engine (`generate_report`, filter section)

The eleven filter inputs of `generate_report`.  String-valued dropdowns use
the literal `"All"` sentinel exactly as the code compares them; `year` and
`month` dropdowns hold either the sentinel or a number, modelled as `Option`;
`dow` is the checkbox list (empty means no constraint); the hour range is
unconditional. -/

structure Criteria where
  borough : String
  year : Option Int
  month : Option Nat
  dow : List Nat
  hour_min : Nat
  hour_max : Nat
  vehicle : String
  person_type : String
  person_injury : String
  gender : String
  safety : String
deriving Repr, DecidableEq

/-- Source: the borough mask, applied only when the dropdown is not at the sentinel. -/
def boroughStage (c : Criteria) (f : List Record) : List Record :=
  if c.borough ≠ "All" then f.filter (fun r => r.BOROUGH == c.borough) else f

/-- Source: the year mask, applied only when a year is selected. -/
def yearStage (c : Criteria) (f : List Record) : List Record :=
  match c.year with
  | some y => f.filter (fun r => r.CRASH_YEAR == y)
  | none => f

/-- Source: the month mask, applied only when a month is selected. -/
def monthStage (c : Criteria) (f : List Record) : List Record :=
  match c.month with
  | some m => f.filter (fun r => r.CRASH_MONTH == m)
  | none => f

/-- Source: the day-of-week `isin` mask, applied only when the list is non-empty. -/
def dowStage (c : Criteria) (f : List Record) : List Record :=
  if c.dow ≠ [] then f.filter (fun r => c.dow.contains r.CRASH_DAYOFWEEK) else f

/-- The unconditional inclusive hour-range mask. -/
def hourStage (c : Criteria) (f : List Record) : List Record :=
  f.filter (fun r => decide (c.hour_min ≤ r.CRASH_HOUR) && decide (r.CRASH_HOUR ≤ c.hour_max))

/-- Source: the vehicle-type mask, applied only when a vehicle type is selected. -/
def vehicleStage (c : Criteria) (f : List Record) : List Record :=
  if c.vehicle ≠ "All" then f.filter (fun r => r.VEHICLE_TYPE_CODE_1 == c.vehicle) else f

/-- Source: the person-type mask, applied only when a person type is selected. -/
def personTypeStage (c : Criteria) (f : List Record) : List Record :=
  if c.person_type ≠ "All" then f.filter (fun r => r.PERSON_TYPE == c.person_type) else f

/-- Source: the injury mask, applied only when an injury status is selected. -/
def personInjuryStage (c : Criteria) (f : List Record) : List Record :=
  if c.person_injury ≠ "All" then f.filter (fun r => r.PERSON_INJURY == c.person_injury) else f

/-- Source: the gender mask, applied only when a gender is selected. -/
def genderStage (c : Criteria) (f : List Record) : List Record :=
  if c.gender ≠ "All" then f.filter (fun r => r.PERSON_SEX == c.gender) else f

/-- Source: the safety-equipment mask, applied only when one is selected. -/
def safetyStage (c : Criteria) (f : List Record) : List Record :=
  if c.safety ≠ "All" then f.filter (fun r => r.SAFETY_EQUIPMENT == c.safety) else f

/-- The incremental filter chain of `generate_report` applied to the base
table, in source order (`df.copy()` is identity on an immutable view). -/
def applyFilters (c : Criteria) (t : List Record) : List Record :=
  safetyStage c (genderStage c (personInjuryStage c (personTypeStage c
    (vehicleStage c (hourStage c (dowStage c (monthStage c
      (yearStage c (boroughStage c t)))))))))

/-- Satisfaction, by one record, of every active criterion (the conjunction the
sequential masks compute); a criterion at `"All"`/absent contributes `true`. -/
def matchesAll (c : Criteria) (r : Record) : Bool :=
  ((((((((((c.borough == "All" || r.BOROUGH == c.borough)
    && (c.year.elim true (fun y => r.CRASH_YEAR == y)))
    && (c.month.elim true (fun m => r.CRASH_MONTH == m)))
    && (c.dow.isEmpty || c.dow.contains r.CRASH_DAYOFWEEK))
    && (decide (c.hour_min ≤ r.CRASH_HOUR) && decide (r.CRASH_HOUR ≤ c.hour_max)))
    && (c.vehicle == "All" || r.VEHICLE_TYPE_CODE_1 == c.vehicle))
    && (c.person_type == "All" || r.PERSON_TYPE == c.person_type))
    && (c.person_injury == "All" || r.PERSON_INJURY == c.person_injury))
    && (c.gender == "All" || r.PERSON_SEX == c.gender))
    && (c.safety == "All" || r.SAFETY_EQUIPMENT == c.safety))

theorem boroughStage_eq (c : Criteria) (f : List Record) :
    boroughStage c f = f.filter (fun r => c.borough == "All" || r.BOROUGH == c.borough) := by
  by_cases h : c.borough = "All"
  · simp [boroughStage, h]
  · rw [boroughStage, if_pos h]
    exact (List.filter_congr (fun r _ => by simp [h])).symm

theorem yearStage_eq (c : Criteria) (f : List Record) :
    yearStage c f = f.filter (fun r => c.year.elim true (fun y => r.CRASH_YEAR == y)) := by
  cases hy : c.year with
  | none => simp [yearStage, hy]
  | some y => simp [yearStage, hy]

theorem monthStage_eq (c : Criteria) (f : List Record) :
    monthStage c f = f.filter (fun r => c.month.elim true (fun m => r.CRASH_MONTH == m)) := by
  cases hm : c.month with
  | none => simp [monthStage, hm]
  | some m => simp [monthStage, hm]

theorem dowStage_eq (c : Criteria) (f : List Record) :
    dowStage c f = f.filter (fun r => c.dow.isEmpty || c.dow.contains r.CRASH_DAYOFWEEK) := by
  by_cases h : c.dow = []
  · simp [dowStage, h]
  · rw [dowStage, if_pos h]
    exact (List.filter_congr (fun r _ => by simp [h, List.isEmpty_iff])).symm

theorem hourStage_eq (c : Criteria) (f : List Record) :
    hourStage c f = f.filter (fun r =>
      decide (c.hour_min ≤ r.CRASH_HOUR) && decide (r.CRASH_HOUR ≤ c.hour_max)) := rfl

theorem vehicleStage_eq (c : Criteria) (f : List Record) :
    vehicleStage c f = f.filter (fun r => c.vehicle == "All" || r.VEHICLE_TYPE_CODE_1 == c.vehicle) := by
  by_cases h : c.vehicle = "All"
  · simp [vehicleStage, h]
  · rw [vehicleStage, if_pos h]
    exact (List.filter_congr (fun r _ => by simp [h])).symm

theorem personTypeStage_eq (c : Criteria) (f : List Record) :
    personTypeStage c f = f.filter (fun r => c.person_type == "All" || r.PERSON_TYPE == c.person_type) := by
  by_cases h : c.person_type = "All"
  · simp [personTypeStage, h]
  · rw [personTypeStage, if_pos h]
    exact (List.filter_congr (fun r _ => by simp [h])).symm

theorem personInjuryStage_eq (c : Criteria) (f : List Record) :
    personInjuryStage c f = f.filter (fun r => c.person_injury == "All" || r.PERSON_INJURY == c.person_injury) := by
  by_cases h : c.person_injury = "All"
  · simp [personInjuryStage, h]
  · rw [personInjuryStage, if_pos h]
    exact (List.filter_congr (fun r _ => by simp [h])).symm

theorem genderStage_eq (c : Criteria) (f : List Record) :
    genderStage c f = f.filter (fun r => c.gender == "All" || r.PERSON_SEX == c.gender) := by
  by_cases h : c.gender = "All"
  · simp [genderStage, h]
  · rw [genderStage, if_pos h]
    exact (List.filter_congr (fun r _ => by simp [h])).symm

theorem safetyStage_eq (c : Criteria) (f : List Record) :
    safetyStage c f = f.filter (fun r => c.safety == "All" || r.SAFETY_EQUIPMENT == c.safety) := by
  by_cases h : c.safety = "All"
  · simp [safetyStage, h]
  · rw [safetyStage, if_pos h]
    exact (List.filter_congr (fun r _ => by simp [h])).symm

/-- The sequential masks of `generate_report` compute one conjunctive
filter over the base table. -/
theorem applyFilters_eq_filter (c : Criteria) (t : List Record) :
    applyFilters c t = t.filter (matchesAll c) := by
  rw [applyFilters, boroughStage_eq, yearStage_eq, monthStage_eq, dowStage_eq,
    hourStage_eq, vehicleStage_eq, personTypeStage_eq, personInjuryStage_eq,
    genderStage_eq, safetyStage_eq]
  simp only [List.filter_filter]
  exact List.filter_congr (fun r _ => by
    simp only [matchesAll, Bool.and_assoc, Bool.and_comm, Bool.and_left_comm])

/-- The reset state of the filter panel: every dropdown at the sentinel, no
day-of-week boxes ticked, hour range 0–23. -/
def defaultCriteria : Criteria :=
  { borough := "All", year := none, month := none, dow := [], hour_min := 0,
    hour_max := 23, vehicle := "All", person_type := "All",
    person_injury := "All", gender := "All", safety := "All" }

/-- C4: filtering by the conjunction of two criteria sets yields exactly the
set intersection of the two individually filtered subsets, and with every
optional criterion at `"All"`/absent the only remaining constraint is the
(unconditional) hour range, which at its default 0–23 accepts every record
with a valid hour. -/
theorem C4_filter_conjunction (t : List Record) (c1 c2 : Criteria) :
    (∀ r : Record,
        r ∈ t.filter (fun x => matchesAll c1 x && matchesAll c2 x)
          ↔ r ∈ applyFilters c1 t ∧ r ∈ applyFilters c2 t)
      ∧ ∀ r : Record, matchesAll defaultCriteria r = decide (r.CRASH_HOUR ≤ 23) := by
  constructor
  · intro r
    rw [applyFilters_eq_filter, applyFilters_eq_filter]
    simp only [List.mem_filter, Bool.and_eq_true]
    tauto
  · intro r
    simp [matchesAll, defaultCriteria, Nat.zero_le]

/-- C5: re-filtering an already-filtered subset by the same criteria is the
identity — the exact same records in the exact same order. -/
theorem C5_filter_idempotent (c : Criteria) (t : List Record) :
    applyFilters c (applyFilters c t) = applyFilters c t := by
  rw [applyFilters_eq_filter, applyFilters_eq_filter, List.filter_filter]
  exact List.filter_congr (fun r _ => by cases matchesAll c r <;> rfl)

/-! ## Vehicle-type normalization (load-time cleanup in `app.py`) -/

/-- The fixed allow-list of normalized vehicle types. -/
def VALID_VEHICLE_TYPES : List String :=
  ["SEDAN", "STATION WAGON/SPORT UTILITY VEHICLE", "TAXI", "PICK-UP TRUCK",
   "BOX TRUCK", "VAN", "MOTORCYCLE", "SCOOTER", "MOPED", "E-SCOOTER", "E-BIKE",
   "BICYCLE", "BUS", "AMBULANCE", "FIRE TRUCK", "TRACTOR TRUCK DIESEL",
   "TRACTOR TRUCK GASOLINE", "DUMP", "FLAT BED", "GARBAGE OR REFUSE",
   "CONCRETE MIXER", "REFRIGERATED VAN", "TRUCK", "LIVERY VEHICLE",
   "PASSENGER VEHICLE", "2 DR SEDAN", "4 DR SEDAN", "CONVERTIBLE",
   "SPORT UTILITY / STATION WAGON", "LIMOUSINE", "UNKNOWN"]

/-- Source: the first-vehicle lambda, keeping allow-listed values and
replacing anything else — a missing value included — with "OTHER". -/
def normalizeVT1 (x : String) : String :=
  if x ∈ VALID_VEHICLE_TYPES then x else "OTHER"

/-- Source: the second-vehicle lambda, which additionally keeps the
"NO SECOND VEHICLE" sentinel. -/
def normalizeVT2 (x : String) : String :=
  if x ∈ VALID_VEHICLE_TYPES ∨ x = "NO SECOND VEHICLE" then x else "OTHER"

/-- Element-wise application of the two `.apply` calls to one row. -/
def normalizeRecord (r : Record) : Record :=
  { r with VEHICLE_TYPE_CODE_1 := normalizeVT1 r.VEHICLE_TYPE_CODE_1
           VEHICLE_TYPE_CODE_2 := normalizeVT2 r.VEHICLE_TYPE_CODE_2 }

/-- The two `df[...].apply(...)` normalization passes over the whole table. -/
def normalizeTable (t : List Record) : List Record :=
  t.map normalizeRecord

/-- C6: after load-time normalization, for every record the primary vehicle type is
in the allow-list ∪ {"OTHER"} and its secondary vehicle type is in the
allow-list ∪ {"OTHER", "NO SECOND VEHICLE"}; normalization is element-wise
(a pure function of the raw value), so processing the table in any order —
e.g. reversed — normalizes each record identically. -/
theorem C6_normalization_total (t : List Record) (r : Record)
    (h : r ∈ normalizeTable t) :
    (r.VEHICLE_TYPE_CODE_1 ∈ VALID_VEHICLE_TYPES ∨ r.VEHICLE_TYPE_CODE_1 = "OTHER")
      ∧ (r.VEHICLE_TYPE_CODE_2 ∈ VALID_VEHICLE_TYPES ∨ r.VEHICLE_TYPE_CODE_2 = "OTHER"
          ∨ r.VEHICLE_TYPE_CODE_2 = "NO SECOND VEHICLE")
      ∧ normalizeTable t.reverse = (normalizeTable t).reverse := by
  obtain ⟨r0, hr0, rfl⟩ := List.mem_map.mp h
  refine ⟨?_, ?_, List.map_reverse _ _⟩
  · show normalizeVT1 r0.VEHICLE_TYPE_CODE_1 ∈ _ ∨ normalizeVT1 r0.VEHICLE_TYPE_CODE_1 = _
    unfold normalizeVT1
    split_ifs with hx
    · exact Or.inl hx
    · exact Or.inr rfl
  · show normalizeVT2 r0.VEHICLE_TYPE_CODE_2 ∈ VALID_VEHICLE_TYPES
        ∨ normalizeVT2 r0.VEHICLE_TYPE_CODE_2 = "OTHER"
        ∨ normalizeVT2 r0.VEHICLE_TYPE_CODE_2 = "NO SECOND VEHICLE"
    unfold normalizeVT2
    split_ifs with hx
    · rcases hx with hx | hx
      · exact Or.inl hx
      · exact Or.inr (Or.inr hx)
    · exact Or.inr (Or.inl rfl)

/-- A sample raw row used to instantiate hypothesis-bearing theorems. -/
def sampleRec : Record :=
  { BOROUGH := "BROOKLYN", CRASH_YEAR := 2021, CRASH_MONTH := 6,
    CRASH_DAYOFWEEK := 2, CRASH_HOUR := 14,
    VEHICLE_TYPE_CODE_1 := "HORSE CART", VEHICLE_TYPE_CODE_2 := "SPACESHIP",
    PERSON_TYPE := "PEDESTRIAN", PERSON_INJURY := "INJURED", PERSON_SEX := "F",
    SAFETY_EQUIPMENT := "NONE", POSITION_IN_VEHICLE := "nan",
    CONTRIBUTING_FACTOR_VEHICLE_1 := "UNSPECIFIED",
    CONTRIBUTING_FACTOR_VEHICLE_2 := "UNSPECIFIED",
    NUMBER_OF_PERSONS_INJURED := 1, NUMBER_OF_PERSONS_KILLED := 0,
    COLLISION_ID := 1, LATITUDE := some (mkRat 405 10),
    LONGITUDE := some (mkRat (-739) 10) }

/-- Witness for `C6_normalization_total` on a one-row table whose raw values
are outside the allow-list. -/
theorem C6_normalization_total_witness :
    normalizeRecord sampleRec ∈ normalizeTable [sampleRec]
      ∧ ((normalizeRecord sampleRec).VEHICLE_TYPE_CODE_1 ∈ VALID_VEHICLE_TYPES
            ∨ (normalizeRecord sampleRec).VEHICLE_TYPE_CODE_1 = "OTHER")
        ∧ ((normalizeRecord sampleRec).VEHICLE_TYPE_CODE_2 ∈ VALID_VEHICLE_TYPES
            ∨ (normalizeRecord sampleRec).VEHICLE_TYPE_CODE_2 = "OTHER"
            ∨ (normalizeRecord sampleRec).VEHICLE_TYPE_CODE_2 = "NO SECOND VEHICLE")
        ∧ normalizeTable [sampleRec].reverse = (normalizeTable [sampleRec]).reverse :=
  ⟨by decide, C6_normalization_total [sampleRec] (normalizeRecord sampleRec) (by decide)⟩

/-! ## Chart 7: injury & fatality rate comparison (`compare_data`)

`groupby(compare_cat)` sorts the group keys ascending; each group
contributes a count of rows and sums of the two outcome columns, from which
the two rates are computed.  Keys are strings for categorical columns and
numbers for temporal ones. -/

/-- A `groupby` key: a string for categorical columns, a number for
temporal ones. -/
inductive GroupKey where
  | str (s : String)
  | num (n : Int)
deriving Repr, DecidableEq

/-- Ascending order on group keys (within one grouping column every key has
the same shape, so the cross-shape cases are arbitrary but fixed). -/
def keyLE : GroupKey → GroupKey → Prop
  | .str a, .str b => a ≤ b
  | .str _, .num _ => True
  | .num _, .str _ => False
  | .num a, .num b => a ≤ b

instance : DecidableRel keyLE := fun a b =>
  match a, b with
  | .str x, .str y => inferInstanceAs (Decidable (x ≤ y))
  | .str _, .num _ => .isTrue trivial
  | .num _, .str _ => .isFalse id
  | .num x, .num y => inferInstanceAs (Decidable (x ≤ y))

instance : IsTotal GroupKey keyLE := by
  constructor
  intro a b
  cases a <;> cases b <;>
    first
      | exact le_total _ _
      | exact Or.inl trivial
      | exact Or.inr trivial

instance : IsTrans GroupKey keyLE := by
  constructor
  intro a b c hab hbc
  cases a <;> cases b <;> cases c <;>
    first
      | trivial
      | exact hab.trans hbc

/-- The ten values offered by the "Comparison Category" dropdown. -/
inductive CompareCat where
  | BOROUGH
  | VEHICLE_TYPE_CODE_1
  | PERSON_TYPE
  | SAFETY_EQUIPMENT
  | CRASH_HOUR
  | CRASH_DAYOFWEEK
  | CRASH_MONTH
  | CRASH_YEAR
  | POSITION_IN_VEHICLE
  | PERSON_SEX
deriving Repr, DecidableEq

/-- The grouping key of one record for the selected comparison column. -/
def compareKey : CompareCat → Record → GroupKey
  | .BOROUGH, r => .str r.BOROUGH
  | .VEHICLE_TYPE_CODE_1, r => .str r.VEHICLE_TYPE_CODE_1
  | .PERSON_TYPE, r => .str r.PERSON_TYPE
  | .SAFETY_EQUIPMENT, r => .str r.SAFETY_EQUIPMENT
  | .CRASH_HOUR, r => .num r.CRASH_HOUR
  | .CRASH_DAYOFWEEK, r => .num r.CRASH_DAYOFWEEK
  | .CRASH_MONTH, r => .num r.CRASH_MONTH
  | .CRASH_YEAR, r => .num r.CRASH_YEAR
  | .POSITION_IN_VEHICLE, r => .str r.POSITION_IN_VEHICLE
  | .PERSON_SEX, r => .str r.PERSON_SEX

/-- The distinct group keys in ascending order, as `groupby` produces them. -/
def groupKeys (cat : CompareCat) (rows : List Record) : List GroupKey :=
  List.insertionSort keyLE (rows.map (compareKey cat)).dedup

/-- One row of `compare_data` after the `.agg` / rate computation. -/
structure CompareRow where
  key : GroupKey
  Total_Records : Nat
  Total_Injuries : Nat
  Total_Fatalities : Nat
  Injury_Rate : ℚ
  Fatality_Rate : ℚ
deriving Repr, DecidableEq

/-- Sum of `NUMBER OF PERSONS INJURED` over a subset. -/
def sumInjured (g : List Record) : Nat :=
  (g.map (fun r => r.NUMBER_OF_PERSONS_INJURED)).sum

/-- Sum of `NUMBER OF PERSONS KILLED` over a subset. -/
def sumKilled (g : List Record) : Nat :=
  (g.map (fun r => r.NUMBER_OF_PERSONS_KILLED)).sum

/-- The aggregated row for one group key: count, sums, and the two rates
`sum / count * 100`. -/
def mkCompareRow (cat : CompareCat) (rows : List Record) (k : GroupKey) : CompareRow :=
  let g := rows.filter (fun r => compareKey cat r == k)
  { key := k
    Total_Records := g.length
    Total_Injuries := sumInjured g
    Total_Fatalities := sumKilled g
    Injury_Rate := (sumInjured g : ℚ) / (g.length : ℚ) * 100
    Fatality_Rate := (sumKilled g : ℚ) / (g.length : ℚ) * 100 }

/-- Table `compare_data` right after the rate computation, one row per group key in
ascending key order. -/
def compareBase (cat : CompareCat) (rows : List Record) : List CompareRow :=
  (groupKeys cat rows).map (mkCompareRow cat rows)

/-- Source `day_mapping`: numeric day codes to names (any other value becomes the
missing marker, as `Series.map` gives NaN). -/
def dayName (n : Int) : String :=
  if n = 0 then "Monday"
  else if n = 1 then "Tuesday"
  else if n = 2 then "Wednesday"
  else if n = 3 then "Thursday"
  else if n = 4 then "Friday"
  else if n = 5 then "Saturday"
  else if n = 6 then "Sunday"
  else "nan"

/-- Source `day_order`, the ordered categories of the categorical sort. -/
def dayOrder : List String :=
  ["Monday", "Tuesday", "Wednesday", "Thursday", "Friday", "Saturday", "Sunday"]

/-- Position of a key in the Monday→Sunday categorical order (values outside
the seven categories sort last, like NaN). -/
def dayPos : GroupKey → Nat
  | .str s => dayOrder.indexOf s
  | .num _ => 7

/-- Replace a numeric day-of-week key by its day name (`.map(day_mapping)`). -/
def renameDow (row : CompareRow) : CompareRow :=
  { row with key := match row.key with | .num n => .str (dayName n) | k => k }

/-- Sorting relation of the non-day branch: injury rate descending. -/
def rateGE (a b : CompareRow) : Prop := b.Injury_Rate ≤ a.Injury_Rate

instance : DecidableRel rateGE :=
  fun a b => inferInstanceAs (Decidable (b.Injury_Rate ≤ a.Injury_Rate))

instance : IsTotal CompareRow rateGE := ⟨fun _ _ => le_total _ _⟩

instance : IsTrans CompareRow rateGE := ⟨fun _ _ _ hab hbc => le_trans hbc hab⟩

/-- Sorting relation of the day-of-week branch: Monday→Sunday categorical
order. -/
def dayLE (a b : CompareRow) : Prop := dayPos a.key ≤ dayPos b.key

instance : DecidableRel dayLE :=
  fun a b => inferInstanceAs (Decidable (dayPos a.key ≤ dayPos b.key))

instance : IsTotal CompareRow dayLE := ⟨fun _ _ => le_total _ _⟩

instance : IsTrans CompareRow dayLE := ⟨fun _ _ _ hab hbc => le_trans hab hbc⟩

/-- The final `compare_data`: for `CRASH_DAYOFWEEK` the keys are renamed to
day names and sorted in categorical Monday→Sunday order; for every other
column the rows are sorted by injury rate descending and cut to the first
15. -/
def compareData (cat : CompareCat) (rows : List Record) : List CompareRow :=
  if cat = CompareCat.CRASH_DAYOFWEEK then
    List.insertionSort dayLE ((compareBase cat rows).map renameDow)
  else
    (List.insertionSort rateGE (compareBase cat rows)).take 15

/-- The ordering contract of chart 7: Monday→Sunday order for day-of-week
grouping; otherwise injury-rate-descending order, at most the top 15 groups,
and the rate of every omitted group is dominated by that of every kept group. -/
def C3Spec (cat : CompareCat) (rows : List Record) : Prop :=
  (cat = CompareCat.CRASH_DAYOFWEEK →
      (compareData cat rows).Pairwise dayLE)
    ∧ (cat ≠ CompareCat.CRASH_DAYOFWEEK →
        (compareData cat rows).Pairwise rateGE
          ∧ (compareData cat rows).length = min 15 (compareBase cat rows).length
          ∧ ∀ x ∈ compareData cat rows, ∀ y ∈ compareBase cat rows,
              y ∉ compareData cat rows → y.Injury_Rate ≤ x.Injury_Rate)

/-- C3: for every non-empty filtered subset, the comparison aggregation
keeps natural Monday→Sunday order when grouping by day-of-week, and for any
other grouping column sorts by injury rate descending and truncates to the
top 15 groups. -/
theorem C3_compare_ordering (cat : CompareCat) (rows : List Record)
    (hrows : rows ≠ []) : C3Spec cat rows := by
  refine ⟨fun hcat => ?_, fun hcat => ⟨?_, ?_, ?_⟩⟩
  · subst hcat
    rw [compareData, if_pos rfl]
    exact List.sorted_insertionSort dayLE _
  · rw [compareData, if_neg hcat]
    exact List.Pairwise.sublist (List.take_sublist _ _)
      (List.sorted_insertionSort rateGE _)
  · rw [compareData, if_neg hcat]
    simp [List.length_take]
  · intro x hx y hy hynot
    rw [compareData, if_neg hcat] at hx hynot
    have hyl : y ∈ List.insertionSort rateGE (compareBase cat rows) :=
      (List.mem_insertionSort rateGE).mpr hy
    rw [← List.take_append_drop 15 (List.insertionSort rateGE (compareBase cat rows))]
      at hyl
    rcases List.mem_append.mp hyl with h | h
    · exact absurd h hynot
    · have hs : List.Pairwise rateGE
          (List.take 15 (List.insertionSort rateGE (compareBase cat rows))
            ++ List.drop 15 (List.insertionSort rateGE (compareBase cat rows))) := by
        rw [List.take_append_drop]
        exact List.sorted_insertionSort rateGE _
      exact (List.pairwise_append.mp hs).2.2 x hx y h

/-- Witness for `C3_compare_ordering` on a one-row table grouped by borough. -/
theorem C3_compare_ordering_witness :
    ([sampleRec] : List Record) ≠ [] ∧ C3Spec CompareCat.BOROUGH [sampleRec] :=
  ⟨by decide, C3_compare_ordering CompareCat.BOROUGH [sampleRec] (by decide)⟩

/-! ## Chart 8: day × hour heatmap (`heatmap_data` / `heatmap_pivot`)

The two-column `groupby` with `.size()` keeps only observed
(day, hour) pairs; `pivot` then builds a grid whose index is the set of
observed days and whose columns are the set of observed hours, with NaN
(here `none`) in any (observed day, observed hour) cell whose pair never
occurs together. -/

/-- Ascending list of the distinct values of a column (a pandas index). -/
def sortedDedup (l : List Nat) : List Nat :=
  List.insertionSort (fun a b => a ≤ b) l.dedup

/-- Number of records with the given day-of-week and hour. -/
def heatCount (rows : List Record) (d hh : Nat) : Nat :=
  (rows.filter (fun r => r.CRASH_DAYOFWEEK == d && r.CRASH_HOUR == hh)).length

/-- One pivot cell: the count when the pair occurs, NaN (`none`) otherwise. -/
def cellAt (rows : List Record) (d hh : Nat) : Option Nat :=
  if heatCount rows d hh = 0 then none else some (heatCount rows d hh)

/-- The pivot table: observed-day index, observed-hour columns, dense cell
grid over those labels. -/
structure HeatPivot where
  rowLabels : List Nat
  colLabels : List Nat
  cells : List (List (Option Nat))
deriving Repr, DecidableEq

/-- Source: the `pivot` call building `heatmap_pivot` with the day-of-week
index, hour columns and the count values. -/
def heatmapPivot (rows : List Record) : HeatPivot :=
  let rl := sortedDedup (rows.map (fun r => r.CRASH_DAYOFWEEK))
  let cl := sortedDedup (rows.map (fun r => r.CRASH_HOUR))
  { rowLabels := rl
    colLabels := cl
    cells := rl.map (fun d => cl.map (fun hh => cellAt rows d hh)) }

theorem sortedDedup_nodup (l : List Nat) : (sortedDedup l).Nodup :=
  ((List.perm_insertionSort _ _).nodup_iff).mpr l.nodup_dedup

theorem mem_sortedDedup {l : List Nat} {a : Nat} : a ∈ sortedDedup l ↔ a ∈ l :=
  (List.mem_insertionSort _).trans (List.mem_dedup)

theorem sortedDedup_pairwise_lt (l : List Nat) :
    (sortedDedup l).Pairwise (fun a b => a < b) := by
  have hs : (sortedDedup l).Pairwise (fun a b => a ≤ b) :=
    List.sorted_insertionSort _ _
  have hn : (sortedDedup l).Pairwise (fun a b => a ≠ b) := sortedDedup_nodup l
  exact (hs.and hn).imp (fun h => lt_of_le_of_ne h.1 h.2)

theorem nodup_length_le (l : List Nat) (n : Nat) (hnd : l.Nodup)
    (h : ∀ x ∈ l, x < n) : l.length ≤ n := by
  classical
  calc l.length = l.toFinset.card := (List.toFinset_card_of_nodup hnd).symm
    _ ≤ (Finset.range n).card := Finset.card_le_card (fun x hx => by
        rw [Finset.mem_range]; exact h x (List.mem_toFinset.mp hx))
    _ = n := Finset.card_range n

/-- The amended shape contract of the heatmap grid: one row per day that
occurs in the subset (at most 7, strictly ascending) and one column per hour
that occurs (at most 24); the grid is rectangular over those labels, and a
(present day, present hour) pair with no records yields an undefined (NaN)
cell rather than a dropped row or column — but a day or hour with no records
at all is omitted entirely. -/
def C7Spec (rows : List Record) : Prop :=
  (heatmapPivot rows).rowLabels.length ≤ 7
    ∧ (heatmapPivot rows).colLabels.length ≤ 24
    ∧ (heatmapPivot rows).rowLabels.Pairwise (fun a b => a < b)
    ∧ (∀ d, d ∈ (heatmapPivot rows).rowLabels ↔ ∃ r ∈ rows, r.CRASH_DAYOFWEEK = d)
    ∧ (∀ hh, hh ∈ (heatmapPivot rows).colLabels ↔ ∃ r ∈ rows, r.CRASH_HOUR = hh)
    ∧ (heatmapPivot rows).cells.length = (heatmapPivot rows).rowLabels.length
    ∧ (∀ rowc ∈ (heatmapPivot rows).cells, rowc.length = (heatmapPivot rows).colLabels.length)
    ∧ ∀ d ∈ (heatmapPivot rows).rowLabels, ∀ hh ∈ (heatmapPivot rows).colLabels,
        (cellAt rows d hh = none ↔ heatCount rows d hh = 0)

/-- C7 counterexample: a non-empty subset with records on a single day gives
a pivot with one row, not the claimed unconditional 7 (and plotly then pairs
that single z-row with the hard-coded 7 y-labels). -/
theorem C7_cex_missing_days :
    ([sampleRec] : List Record) ≠ []
      ∧ (heatmapPivot [sampleRec]).rowLabels.length ≠ 7 :=
  ⟨by decide, by decide⟩

/-- C7 as amended: the grid rows/columns are exactly the observed days and
hours (so at most 7 × 24 when the data is in range, in ascending order),
missing combinations among observed labels are NaN cells, and unobserved
days/hours are omitted. -/
theorem C7_amended_heatmap_shape (rows : List Record) (hrows : rows ≠ [])
    (h7 : ∀ r ∈ rows, r.CRASH_DAYOFWEEK < 7)
    (h24 : ∀ r ∈ rows, r.CRASH_HOUR < 24) : C7Spec rows := by
  refine ⟨?_, ?_, ?_, ?_, ?_, ?_, ?_, ?_⟩
  · refine nodup_length_le _ _ (sortedDedup_nodup _) (fun x hx => ?_)
    obtain ⟨r, hr, rfl⟩ := List.mem_map.mp (mem_sortedDedup.mp hx)
    exact h7 r hr
  · refine nodup_length_le _ _ (sortedDedup_nodup _) (fun x hx => ?_)
    obtain ⟨r, hr, rfl⟩ := List.mem_map.mp (mem_sortedDedup.mp hx)
    exact h24 r hr
  · exact sortedDedup_pairwise_lt _
  · intro d
    rw [show (heatmapPivot rows).rowLabels
        = sortedDedup (rows.map (fun r => r.CRASH_DAYOFWEEK)) from rfl,
      mem_sortedDedup, List.mem_map]
  · intro hh
    rw [show (heatmapPivot rows).colLabels
        = sortedDedup (rows.map (fun r => r.CRASH_HOUR)) from rfl,
      mem_sortedDedup, List.mem_map]
  · exact List.length_map _ _
  · intro rowc hrc
    obtain ⟨d, _, rfl⟩ := List.mem_map.mp hrc
    exact List.length_map _ _
  · intro d _ hh _
    unfold cellAt
    split_ifs with h
    · simp [h]
    · simp [h]

/-- Witness for `C7_amended_heatmap_shape` on a one-row table. -/
theorem C7_amended_heatmap_shape_witness :
    (([sampleRec] : List Record) ≠ []
        ∧ (∀ r ∈ ([sampleRec] : List Record), r.CRASH_DAYOFWEEK < 7)
        ∧ ∀ r ∈ ([sampleRec] : List Record), r.CRASH_HOUR < 24)
      ∧ C7Spec [sampleRec] :=
  ⟨⟨by decide, by decide, by decide⟩,
    C7_amended_heatmap_shape [sampleRec] (by decide) (by decide) (by decide)⟩

/-! ## Chart 9: geographic map sample base (`map_sample` before sampling)

The spatial mask of `generate_report` examines only the `LATITUDE` column:
`notna() & (!= 0) & (> 40) & (< 41)`. -/

/-- The subset of the filtered records the map layer keeps before the
3000-point random sample is drawn. -/
def mapSampleBase (rows : List Record) : List Record :=
  rows.filter (fun r =>
    match r.LATITUDE with
    | none => false
    | some l => decide (l ≠ 0) && decide (40 < l) && decide (l < 41))

/-- C8 counterexample: a record with a perfectly valid latitude (40.5) and a
zero — hence invalid by the claim — longitude is still kept for the map
sample, because the mask never looks at `LONGITUDE`. -/
theorem C8_cex_longitude_unchecked :
    ({ sampleRec with LONGITUDE := some 0 } : Record).LONGITUDE = some 0
      ∧ ({ sampleRec with LONGITUDE := some 0 } : Record)
          ∈ mapSampleBase [{ sampleRec with LONGITUDE := some 0 }] :=
  ⟨rfl, by decide⟩

/-- C8 as amended: before sampling, the map layer keeps exactly the records
whose latitude is non-null, non-zero and strictly between 40 and 41; the
longitude is never examined. -/
theorem C8_amended_latitude_mask (rows : List Record) (r : Record) :
    r ∈ mapSampleBase rows
      ↔ r ∈ rows ∧ ∃ l : ℚ, r.LATITUDE = some l ∧ l ≠ 0 ∧ 40 < l ∧ l < 41 := by
  rw [mapSampleBase, List.mem_filter]
  apply and_congr Iff.rfl
  cases hl : r.LATITUDE with
  | none => simp [hl]
  | some l => simp [hl, and_assoc]

/-! ## `generate_report`: filter, empty guard, and the computed chart data

The 19-tuple the Python function returns consists of markdown/figure
objects; the placeholder tuple returned on an empty subset becomes the
`noData` constructor, and the normal return becomes a `report` carrying the
data computed in this file (summary statistics, chart 7 rows, heatmap
pivot and map base). -/

/-- The data content of a successful report. -/
structure ReportData where
  summary_total_records : Nat
  summary_total_injuries : Nat
  summary_total_fatalities : Nat
  summary_injury_rate : ℚ
  summary_fatality_rate : ℚ
  compare_rows : List CompareRow
  heatmap : HeatPivot
  map_base : List Record
deriving Repr, DecidableEq

/-- Either the "No data found. Adjust filters." placeholder tuple, or a
report. -/
inductive ReportOutput where
  | noData
  | report (data : ReportData)
deriving Repr, DecidableEq

/-- Model of `generate_report`: apply every filter, short-circuit to the placeholder
outputs when the subset is empty, otherwise aggregate. -/
def generateReport (c : Criteria) (compare_cat : CompareCat) (t : List Record) :
    ReportOutput :=
  let filtered := applyFilters c t
  if filtered = [] then ReportOutput.noData
  else
    ReportOutput.report
      { summary_total_records := filtered.length
        summary_total_injuries := sumInjured filtered
        summary_total_fatalities := sumKilled filtered
        summary_injury_rate := (sumInjured filtered : ℚ) / (filtered.length : ℚ) * 100
        summary_fatality_rate := (sumKilled filtered : ℚ) / (filtered.length : ℚ) * 100
        compare_rows := compareData compare_cat filtered
        heatmap := heatmapPivot filtered
        map_base := mapSampleBase filtered }

/-- C2: whenever the filtered subset is empty, `generate_report` returns the
designated "no data" placeholder outputs; all aggregation (and hence every
division and every indexing of a grouped structure) lives only in the
non-empty branch and is never evaluated. -/
theorem C2_empty_subset_guard (c : Criteria) (cat : CompareCat) (t : List Record)
    (h : applyFilters c t = []) :
    generateReport c cat t = ReportOutput.noData := by
  simp [generateReport, h]

/-- Criteria whose borough constraint excludes the sample record. -/
def exclCriteria : Criteria := { defaultCriteria with borough := "QUEENS" }

/-- Witness for `C2_empty_subset_guard`: the Queens filter empties the
one-Brooklyn-record table. -/
theorem C2_empty_subset_guard_witness :
    applyFilters exclCriteria [sampleRec] = []
      ∧ generateReport exclCriteria CompareCat.BOROUGH [sampleRec] = ReportOutput.noData :=
  ⟨by decide, C2_empty_subset_guard exclCriteria CompareCat.BOROUGH [sampleRec] (by decide)⟩

/-- C10: the hour-range mask is applied unconditionally (it has no absent
state), so an inverted range `hour_min > hour_max` empties the subset and
forces the "No data found" placeholder return, for every criteria set and
every base table. -/
theorem C10_inverted_hour_range (c : Criteria) (cat : CompareCat) (t : List Record)
    (h : c.hour_max < c.hour_min) :
    applyFilters c t = [] ∧ generateReport c cat t = ReportOutput.noData := by
  have he : applyFilters c t = [] := by
    rw [applyFilters_eq_filter]
    refine List.filter_eq_nil_iff.mpr (fun r _ => ?_)
    intro hm
    simp only [matchesAll, Bool.and_eq_true, decide_eq_true_eq] at hm
    omega
  exact ⟨he, by simp [generateReport, he]⟩

/-- Criteria with an inverted hour range. -/
def invertedHourCriteria : Criteria :=
  { defaultCriteria with hour_min := 5, hour_max := 3 }

/-- Witness for `C10_inverted_hour_range` on a one-record table that every
other criterion accepts. -/
theorem C10_inverted_hour_range_witness :
    invertedHourCriteria.hour_max < invertedHourCriteria.hour_min
      ∧ applyFilters invertedHourCriteria [sampleRec] = []
        ∧ generateReport invertedHourCriteria CompareCat.BOROUGH [sampleRec]
            = ReportOutput.noData :=
  ⟨by decide,
    C10_inverted_hour_range invertedHourCriteria CompareCat.BOROUGH [sampleRec] (by decide)⟩
